import Mathlib

/-!
Shallow embedding of the summarization core of the `summary` repository
(`src/ocr_app`): the OpenRouter summarization client with its model-fallback
pipeline (`clients/openrouter.py`), the document extractor
(`core/extractor.py`), and the two folder-summarization strategies
(`core/strategies/simple.py`, `core/strategies/hierarchical.py`).

Texts manipulated by the code are modelled as `List Char`; Python `len`,
slicing, `str.strip`, `str.lstrip` become the corresponding list operations.
Wall-clock concerns (rate-limit sleeps, inter-file pauses, processing_time)
have no effect on returned values and are not modelled.  The remote HTTP
backend, the PDF/OCR backends and the filesystem are modelled as oracles,
following the spec's external-interface section: the embedded functions are
parameterized by the collaborator behaviour and quantified over it.
-/

namespace OcrApp

/-! ## Python string primitives -/

/-- Python `str.strip()` on the left: drop leading whitespace. -/
def pyStripLeft (t : List Char) : List Char := t.dropWhile Char.isWhitespace

/-- Python `str.strip()`: drop leading and trailing whitespace.
(Python strips a slightly larger Unicode whitespace class than
`Char.isWhitespace`; none of the texts involved here contain those extra
characters.) -/
def pyStrip (t : List Char) : List Char :=
  ((t.dropWhile Char.isWhitespace).reverse.dropWhile Char.isWhitespace).reverse

/-- Python `str.lstrip(chars)`: drop leading characters while they belong to
the character SET `cs` (not: remove the prefix `cs`). -/
def pyLstripChars (t : List Char) (cs : List Char) : List Char :=
  t.dropWhile (fun c => cs.contains c)

/-- Python substring test `pat in body`. -/
def containsSub (pat : List Char) : List Char → Bool
  | [] => pat.isEmpty
  | c :: rest => pat.isPrefixOf (c :: rest) || containsSub pat rest

/-- Python slice `t[i:]` for a possibly negative index `i`
(negative indices count from the end, clamped at 0). -/
def pySliceFrom (t : List Char) (i : Int) : List Char :=
  if i < 0 then t.drop ((t.length : Int) + i).toNat else t.drop i.toNat

/-! ## Client: exceptions and retry (`clients/openrouter.py`) -/

/-- The exceptions that can flow out of `OpenRouterClient._request`.
`httpError` stands for `requests.exceptions.HTTPError` raised by
`response.raise_for_status()` (its real rendering also includes the reason
phrase and URL, which the oracle does not carry); `retryError` stands for
`tenacity.RetryError` wrapping the last attempt's exception; `indexError`
stands for the `IndexError` of `models_to_try[0]` on an empty model list. -/
inductive PyExc where
  | requestException (msg : String)
  | timeoutError (msg : String)
  | httpError (status : Nat)
  | valueError (msg : String)
  | retryError (last : PyExc)
  | indexError
  deriving DecidableEq

/-- Python `str(e)` for the exceptions above.  (The real `str` of an
`HTTPError` / `RetryError` includes the URL / the `Future` repr; only the
shape `prefix ++ rendering-of-the-exception` matters to the theorems.) -/
def excStr : PyExc → String
  | .requestException m => m
  | .timeoutError m => m
  | .httpError status => toString status ++ " Error"
  | .valueError m => m
  | .retryError last => "RetryError[" ++ excStr last ++ "]"
  | .indexError => "list index out of range"

/-- `retry_if_exception_type((requests.exceptions.RequestException, TimeoutError))`:
which exceptions the tenacity decorator on `_request` retries.
`requests.exceptions.HTTPError` is a subclass of `RequestException`, hence
retryable; `ValueError` and `RetryError` are not. -/
def retryable : PyExc → Bool
  | .requestException _ => true
  | .timeoutError _ => true
  | .httpError _ => true
  | .valueError _ => false
  | .retryError _ => false
  | .indexError => false

/-- An HTTP response from the OpenRouter endpoint, as `_request` consumes it:
status code, `response.text`, and the parsed `choices[i].message.content`
fields (an empty list models a JSON body with no/empty `"choices"`). -/
structure HttpResponse where
  status : Nat
  body : String
  choices : List (List Char)
  deriving DecidableEq

/-- What one outbound `session.post` can do: raise (connection error,
timeout), or deliver a response. -/
inductive AttemptResult where
  | raised (e : PyExc)
  | response (r : HttpResponse)
  deriving DecidableEq

/-- The `"not a valid model ID"` marker tested against `response.text`. -/
def invalidModelPat : List Char := "not a valid model ID".data

/-- One body execution of `OpenRouterClient._request` (lines 134-179):
status-code dispatch, then `choices[0].message.content.strip()`.
Every failure is a raised exception (`Except.error`). -/
def requestOnce (a : AttemptResult) : Except PyExc (List Char) :=
  match a with
  | .raised e => .error e
  | .response r =>
    if r.status = 429 then
      .error (.requestException "Rate limit (429)")
    else if r.status = 402 then
      .error (.requestException "Credit limit exceeded (402)")
    else if r.status = 400 ∧ containsSub invalidModelPat r.body.data = true then
      .error (.requestException "Invalid model ID (400)")
    else if 400 ≤ r.status then
      .error (.httpError r.status)
    else
      match r.choices with
      | [] => .error (.valueError "Некорректный ответ API")
      | c :: _ => .ok (pyStrip c)

/-- `_request` under its tenacity decorator `stop_after_attempt(2)`:
attempt 0; if it raises a retryable exception, attempt 1; if that again
raises a retryable exception the decorator gives up with a `RetryError`
(tenacity's default `reraise=False`), a non-retryable exception propagates
as-is.  Also returns the number of attempts actually made. -/
def requestWithRetryCount (a : Nat → AttemptResult) : Except PyExc (List Char) × Nat :=
  match requestOnce (a 0) with
  | .ok s => (.ok s, 1)
  | .error e =>
    if retryable e then
      match requestOnce (a 1) with
      | .ok s => (.ok s, 2)
      | .error e2 => (if retryable e2 then .error (.retryError e2) else .error e2, 2)
    else (.error e, 1)

/-- The value `_request(prompt, model, …)` delivers to `summarize`. -/
def requestWithRetry (a : Nat → AttemptResult) : Except PyExc (List Char) :=
  (requestWithRetryCount a).1

/-! ## Client: model hierarchy, truncation, prompt (`clients/openrouter.py`) -/

/-- `MODEL_HIERARCHY["balanced"]`. -/
def balancedModels : List String := ["mistralai/mistral-7b-instruct:nitro"]

/-- `OpenRouterClient.MODEL_HIERARCHY` (lines 30-45; commented-out entries
of the source are omitted as in the source's runtime value). -/
def MODEL_HIERARCHY : List (String × List String) :=
  [("premium", ["nousresearch/hermes-3-llama-3.1-405b:free"]),
   ("balanced", balancedModels),
   ("fast", ["mistralai/mistral-7b-instruct:nitro", "google/gemma-2-9b-it:free"])]

/-- `OpenRouterClient.MODEL_CONTEXT_LIMITS` (lines 48-54). -/
def MODEL_CONTEXT_LIMITS : List (String × Nat) :=
  [("meta-llama/llama-3.3-70b-instruct:free", 100000),
   ("meta-llama/llama-3.2-3b-instruct:free", 100000),
   ("google/gemma-3n-e4b-it:free", 6000),
   ("deepseek/deepseek-r1-0528:free", 100000),
   ("mistralai/mistral-7b-instruct:nitro", 28000)]

/-- `self.MODEL_CONTEXT_LIMITS.get(model, 25_000)`. -/
def contextLimitFor (model : String) : Nat :=
  (MODEL_CONTEXT_LIMITS.lookup model).getD 25000

/-- `self.MODEL_HIERARCHY.get(strategy, self.MODEL_HIERARCHY["balanced"])`
(line 215). -/
def modelsFor (strategy : String) : List String :=
  (MODEL_HIERARCHY.lookup strategy).getD balancedModels

/-- `strategy = strategy or self.default_strategy` (line 214).  Python `or`
falls through on falsy values, so both `None` and the empty string are
replaced by the default strategy. -/
def resolveStrategy (strategy : Option String) (default_ : String) : String :=
  match strategy with
  | none => default_
  | some s => if s = "" then default_ else s

/-- The omission marker spliced between head and tail on truncation
(line 227). -/
def OMIT_MARKER : String := "\n\n[... ПРОПУЩЕНО ИЗ-ЗА ОГРАНИЧЕНИЯ КОНТЕКСТА ...]\n\n"

/-- `min(15_000, int(context_limit * 0.6))` (line 223).  The source computes
`int(context_limit * 0.6)` in floating point; for every limit occurring in
`MODEL_CONTEXT_LIMITS`, for the default 25000 and for the spec's scenario
limit 1000, that equals exact `limit * 6 / 10` (floor). -/
def keepStartOf (limit : Nat) : Nat := min 15000 (limit * 6 / 10)

/-- The context-length guard of `summarize` (lines 221-231): if the text is
longer than the limit, keep `keepStartOf limit` characters from the start and
`limit - keepStart - 100` characters from the end (a Python tail slice
`text[-keep_end:]`, with `keep_end` computed in `int` arithmetic), splicing
the omission marker between them.  Returns the (possibly) truncated text and
the `truncated` flag. -/
def truncateForContext (limit : Nat) (text : List Char) : List Char × Bool :=
  if limit < text.length then
    (text.take (keepStartOf limit) ++ OMIT_MARKER.data ++
       pySliceFrom text (-((limit : Int) - (keepStartOf limit : Int) - 100)), true)
  else (text, false)

/-- The fixed part of `_prepare_prompt` before `{text}` (lines 183-194). -/
def PROMPT_HEAD : String :=
  "Ты — эксперт по анализу документов на русском языке.\nТекст может содержать артефакты распознавания: разорванные слова, лишние символы (|, #), опечатки.\n\nЗадача:\n1. Проигнорируй мусорные символы и артефакты\n2. Восстанови смысл там, где это возможно\n3. Создай краткое саммари на русском языке\n4. Выдели ключевые факты: даты, суммы, стороны, предмет документа\n5. Ответ должен содержать ТОЛЬКО саммари, без вводных фраз\n\nТекст:\n"

/-- The fixed part of `_prepare_prompt` after `{text}` (line 196). -/
def PROMPT_TAIL : String := "\n\nСаммари:"

/-- `OpenRouterClient._prepare_prompt` (lines 181-196). -/
def prepare_prompt (text : List Char) : List Char :=
  PROMPT_HEAD.data ++ text ++ PROMPT_TAIL.data

/-- The output post-processing of a successful model response (line 239):
`summary.lstrip("Саммари:").lstrip("Summary:").strip()`. -/
def postProcess (s : List Char) : List Char :=
  pyStrip (pyLstripChars (pyLstripChars s "Саммари:".data) "Summary:".data)

/-! ## Client: `summarize` (lines 198-273) -/

/-- `ModelRequestOutcome`: the dict `summarize` returns.  The open `metadata`
mapping is modelled as explicitly-typed optional fields (`meta_*`); a `none`
in `meta_tokens_input` / `meta_tokens_output` / `meta_attempted_models`
means the corresponding key is absent from the metadata dict. -/
structure Outcome where
  summary : Option (List Char)
  model_used : String
  success : Bool
  fallback_used : Bool
  meta_fallback_used : Bool
  meta_truncated : Bool
  meta_tokens_input : Option Nat
  meta_tokens_output : Option Nat
  meta_attempted_models : Option (List String)
  error : Option String
  deriving DecidableEq

/-- The remote backend's behaviour, per model and per attempt index within
that model's retry loop.  (The real responses may also depend on the prompt;
the theorems quantify over arbitrary behaviours, so suppressing that
dependence loses no generality for them.) -/
def Env : Type := String → Nat → AttemptResult

/-- Result of the fallback loop of `summarize` (lines 236-260): either the
first model whose `_request` succeeded (with its index in the list and the
post-processed summary), or exhaustion carrying `last_error`. -/
inductive TryOutcome where
  | success (idx : Nat) (model : String) (summary : List Char)
  | exhausted (last : Option PyExc)
  deriving DecidableEq

/-- The fallback loop of `summarize` (lines 236-260): try each model in
order; `except Exception` catches every exception `_request` can deliver,
records it as `last_error` and continues with the next model. -/
def tryModels (env : Env) : List String → Nat → Option PyExc → TryOutcome
  | [], _, last => .exhausted last
  | m :: rest, i, _last =>
    match requestWithRetry (env m) with
    | .ok content => .success i m (postProcess content)
    | .error e => tryModels env rest (i + 1) (some e)

/-- Python `f"...{last_error}"` where `last_error` is `None` or an exception. -/
def renderLastError : Option PyExc → String
  | some e => excStr e
  | none => "None"

/-- `OpenRouterClient.summarize` for a given resolved candidate list
(lines 217-273).  `models_to_try[0]` on an empty list raises `IndexError`
(line 218), hence the `Except`; every other path returns an outcome dict. -/
def summarizeWith (env : Env) (models : List String) (text : List Char) :
    Except PyExc Outcome :=
  match models with
  | [] => .error .indexError
  | m0 :: _ =>
    let res := truncateForContext (contextLimitFor m0) text
    let prompt := prepare_prompt res.1
    match tryModels env models 0 none with
    | .success i m s =>
      .ok { summary := some s
            model_used := m
            success := true
            fallback_used := decide (0 < i)
            meta_fallback_used := decide (0 < i)
            meta_truncated := res.2
            meta_tokens_input := some (prompt.length / 4)
            meta_tokens_output := some (s.length / 4)
            meta_attempted_models := none
            error := none }
    | .exhausted last =>
      .ok { summary := none
            model_used := m0
            success := false
            fallback_used := true
            meta_fallback_used := true
            meta_truncated := res.2
            meta_tokens_input := none
            meta_tokens_output := none
            meta_attempted_models := some models
            error := some ("Все модели недоступны. Последняя ошибка: " ++ renderLastError last) }

/-- `OpenRouterClient.summarize` (lines 198-273), for a client constructed
with default strategy `default_` and a backend behaving as `env`.
The unused `max_length` parameter and the pass-through `temperature` are
omitted: they do not influence the returned value beyond the oracle. -/
def summarize (env : Env) (default_ : String) (text : List Char)
    (strategy : Option String) : Except PyExc Outcome :=
  summarizeWith env (modelsFor (resolveStrategy strategy default_)) text

/-! ## Strategies (`core/strategies/simple.py`, `core/strategies/hierarchical.py`)

The folder walk (`folder.glob`), the existence check on the folder, the
inter-file pauses and the wall-clock `processing_time` are filesystem/timing
effects; the strategies are embedded from the point where the filtered
`target_files` list is in hand, with the extractor and the client as oracles.
File paths are taken to be already relative to the folder, so
`str(file_path)` and `str(file_path.relative_to(folder))` coincide. -/

/-- `FileSummary.status`. -/
inductive FStatus where
  | success
  | empty
  | error
  deriving DecidableEq

/-- The per-file summary dict built by `_summarize_single_file`.  A `none`
field models an absent dict key (the success branch has no `error` key, the
error branch no `model_used` key).  The `metadata` passthrough
(`result.get("metadata", {})`) is not modelled: no claim touches it. -/
structure FileSummary where
  file : String
  status : FStatus
  summary : Option (List Char)
  model_used : Option String
  original_length : Nat
  summary_length : Nat
  error : Option String
  deriving DecidableEq

/-- Python truthiness of the optional `result["summary"]` value:
falsy when absent (`None`) or the empty string. -/
def optTruthy : Option (List Char) → Bool
  | none => false
  | some t => !t.isEmpty

/-- `_summarize_single_file` (identical in both strategies): extract, map
empty text to status `empty`, otherwise call the client and map its outcome.
In the error branch `result.get("error", "Неизвестная ошибка")` returns the
`error` key's value, which both return paths of `OpenRouterClient.summarize`
populate (possibly with `None`), so the dict-get default is dead code under
this client. -/
def summarizeSingleFile (client : List Char → Outcome)
    (extractor : String → List Char) (file : String) : FileSummary :=
  let text := extractor file
  if (pyStrip text).isEmpty then
    { file := file, status := .empty, summary := none, model_used := none,
      original_length := 0, summary_length := 0, error := none }
  else
    let r := client text
    if r.success = true ∧ optTruthy r.summary = true then
      { file := file, status := .success, summary := r.summary,
        model_used := some r.model_used, original_length := text.length,
        summary_length := (r.summary.getD []).length, error := none }
    else
      { file := file, status := .error, summary := none, model_used := none,
        original_length := text.length, summary_length := 0, error := r.error }

/-- `len([s for s in file_summaries if s["status"] == "success"])`. -/
def countSuccess (l : List FileSummary) : Nat :=
  (l.filter (fun s => s.status == FStatus.success)).length

/-- Index of the last occurrence of `c` in the list, if any. -/
def lastIdxOf (c : Char) : List Char → Option Nat
  | [] => none
  | x :: xs =>
    match lastIdxOf c xs with
    | some i => some (i + 1)
    | none => if x = c then some 0 else none

/-- `pathlib.Path(p).name`: the component after the last separator
(POSIX separator; no path in the model contains a backslash). -/
def pathFinalComponent (p : List Char) : List Char :=
  match lastIdxOf '/' p with
  | some i => p.drop (i + 1)
  | none => p

/-- The filter of `_aggregate_summaries`:
`s["status"] == "success" and s["summary"]`. -/
def isSuccessful (s : FileSummary) : Bool :=
  s.status == FStatus.success && optTruthy s.summary

/-- The labelled entries of the aggregation prompt, `enumerate(successful, 1)`
(hierarchical.py lines 135-137). -/
def aggEntries : List FileSummary → Nat → List Char
  | [], _ => []
  | s :: rest, i =>
    ("Документ " ++ toString i ++ " (").data ++ pathFinalComponent s.file.data ++
      "):\n".data ++ (s.summary.getD []) ++ "\n\n".data ++ aggEntries rest (i + 1)

/-- The fallback overview text when the aggregation call fails
(hierarchical.py lines 144-147); `result.get('error', 'неизвестно')` always
finds the `error` key under this client, rendering `None` when it is null. -/
def aggFallback (e : Option String) : List Char :=
  ("Не удалось создать общий обзор.\nПричина: " ++
    (match e with
     | some m => m
     | none => "None")).data

/-- `HierarchicalSummarizationStrategy._aggregate_summaries` (lines 123-147).
Also returns the list of aggregation request texts actually sent to the
client — a ghost record used to state when an aggregation call is made;
it is not part of the source dict. -/
def aggregateSummaries (client : List Char → Outcome)
    (fileSummaries : List FileSummary) : Option (List Char) × List (List Char) :=
  let successful := fileSummaries.filter isSuccessful
  if successful.isEmpty then (none, [])
  else
    let aggText := "Саммари отдельных документов:\n\n".data ++ aggEntries successful 1
    let r := client aggText
    if r.success = true ∧ optTruthy r.summary = true then (r.summary, [aggText])
    else (some (aggFallback r.error), [aggText])

/-- The folder-level result dict common to both strategies.  `aggCalls` is
the ghost list of aggregation request texts issued during the run (always
`[]` for the simple strategy, which never aggregates); `processing_time` is
wall-clock and not modelled. -/
structure FolderResult where
  overview : Option (List Char)
  file_summaries : List FileSummary
  meta_strategy : String
  meta_folder : String
  meta_total_files : Nat
  meta_processed : Nat
  meta_failed : List String
  aggCalls : List (List Char)
  deriving DecidableEq

/-- The empty-folder overview sentinel of the hierarchical strategy
(hierarchical.py line 152). -/
def emptyFolderOverview : String :=
  "В папке не найдено поддерживаемых документов (.pdf, .jpg, .webp и др.)"

/-- `HierarchicalSummarizationStrategy.summarize_folder` from the point the
filtered `target_files` list is known (lines 56-85), inlining
`_build_empty_result` and `_build_result` (lines 149-188). -/
def hierarchicalSummarizeFolder (extractor : String → List Char)
    (client : List Char → Outcome) (minFiles : Nat) (folder : String)
    (targetFiles : List String) : FolderResult :=
  if targetFiles.isEmpty then
    { overview := some emptyFolderOverview.data, file_summaries := [],
      meta_strategy := "hierarchical", meta_folder := folder,
      meta_total_files := 0, meta_processed := 0, meta_failed := [], aggCalls := [] }
  else
    let fileSummaries := targetFiles.map (summarizeSingleFile client extractor)
    let failed := (fileSummaries.filter (fun s => !(s.status == FStatus.success))).map
      (fun s => s.file)
    let agg :=
      if minFiles ≤ countSuccess fileSummaries then aggregateSummaries client fileSummaries
      else (none, [])
    { overview := agg.1, file_summaries := fileSummaries,
      meta_strategy := "hierarchical", meta_folder := folder,
      meta_total_files := fileSummaries.length,
      meta_processed := countSuccess fileSummaries,
      meta_failed := failed, aggCalls := agg.2 }

/-- `SimpleSummarizationStrategy.summarize_folder` from the point the
filtered `target_files` list is known (lines 36-69), inlining
`_build_empty_result` and `_build_result` (lines 107-145): identical
bookkeeping, `overview` hard-wired to `None`, no aggregation call ever. -/
def simpleSummarizeFolder (extractor : String → List Char)
    (client : List Char → Outcome) (folder : String)
    (targetFiles : List String) : FolderResult :=
  if targetFiles.isEmpty then
    { overview := none, file_summaries := [],
      meta_strategy := "simple", meta_folder := folder,
      meta_total_files := 0, meta_processed := 0, meta_failed := [], aggCalls := [] }
  else
    let fileSummaries := targetFiles.map (summarizeSingleFile client extractor)
    let failed := (fileSummaries.filter (fun s => !(s.status == FStatus.success))).map
      (fun s => s.file)
    { overview := none, file_summaries := fileSummaries,
      meta_strategy := "simple", meta_folder := folder,
      meta_total_files := fileSummaries.length,
      meta_processed := countSuccess fileSummaries,
      meta_failed := failed, aggCalls := [] }

/-! ## Document extractor (`core/extractor.py`)

The filesystem and the PDF/OCR backends are oracles, at the granularity the
spec's external-interface section gives them: opening a PDF yields the list
of its pages or raises; each page's `extract_text()` returns text, `None`,
or raises; the whole image pipeline (`Image.open`, mode compositing,
`pytesseract.image_to_string`) yields text or raises. -/

deriving instance DecidableEq for Except

/-- The behaviour of one path's file for `extract_file`: does the path
exist, and what do the two extraction backends do on it. -/
structure ExtractEnv where
  present : Bool
  pdf : Except String (List (Except String (Option (List Char))))
  image : Except String (List Char)
  deriving DecidableEq

/-- `DocumentExtractor.SUPPORTED_IMAGE_EXTS`. -/
def SUPPORTED_IMAGE_EXTS : List (List Char) :=
  [".jpg".data, ".jpeg".data, ".webp".data, ".png".data, ".bmp".data, ".tiff".data]

/-- `DocumentExtractor.SUPPORTED_PDF_EXTS`. -/
def SUPPORTED_PDF_EXTS : List (List Char) := [".pdf".data]

/-- `pathlib.Path(p).suffix`: extension of the final component; a dot at
position 0 (hidden file) or in last position does not count. -/
def pySuffix (p : List Char) : List Char :=
  match lastIdxOf '.' (pathFinalComponent p) with
  | some i =>
    if 0 < i ∧ i < (pathFinalComponent p).length - 1 then (pathFinalComponent p).drop i
    else []
  | none => []

/-- Python `str.lower()` on an extension (ASCII only, which `Char.toLower`
matches for the extensions involved). -/
def pyLower (s : List Char) : List Char := s.map Char.toLower

/-- The page loop of `_extract_pdf` (lines 60-64): accumulate
`"\n--- Страница {n} ---\n{page_text}\n"` for each page whose text is
truthy, skip falsy pages, and stop at the first page whose `extract_text()`
raises — the surrounding `except` then returns the text accumulated SO FAR,
stripped.  Page numbers count every page, skipped or not. -/
def pdfLoop : List (Except String (Option (List Char))) → Nat → List Char → List Char
  | [], _, acc => pyStrip acc
  | .error _ :: _, _, acc => pyStrip acc
  | .ok p :: rest, n, acc =>
    pdfLoop rest (n + 1)
      (acc ++
        match p with
        | some t => if t.isEmpty then [] else ("\n--- Страница " ++ toString n ++ " ---\n").data ++ t ++ "\n".data
        | none => [])

/-- `DocumentExtractor._extract_pdf` (lines 56-69): a failing
`pdfplumber.open` is caught with `text` still `""`. -/
def extractPdf (pdf : Except String (List (Except String (Option (List Char))))) :
    List Char :=
  match pdf with
  | .error _ => []
  | .ok pages => pdfLoop pages 1 []

/-- `DocumentExtractor._extract_image` (lines 71-93): black-box OCR result,
stripped; any exception is caught and yields `""`. -/
def extractImage (img : Except String (List Char)) : List Char :=
  match img with
  | .error _ => []
  | .ok t => pyStrip t

/-- `DocumentExtractor.extract_file` (lines 29-54): missing path yields `""`;
extension dispatch (case-insensitive) to the PDF or image handler; any other
extension is skipped with `""` and no error.  The handlers catch their own
exceptions, so the outer `except Exception` is unreachable and the function
is total. -/
def extract_file (path : List Char) (env : ExtractEnv) : List Char :=
  if env.present = false then []
  else if SUPPORTED_PDF_EXTS.contains (pyLower (pySuffix path)) then extractPdf env.pdf
  else if SUPPORTED_IMAGE_EXTS.contains (pyLower (pySuffix path)) then extractImage env.image
  else []

/-! ## Concrete collaborator behaviours used by witnesses and counterexamples -/

/-- A backend on which every outbound request raises a connection error. -/
def envFailAll : Env := fun _ _ => .raised (.requestException "boom")

/-- A backend where only `google/gemma-2-9b-it:free` answers; every other
model's requests raise. -/
def envFastFallback : Env := fun model _ =>
  if model = "google/gemma-2-9b-it:free" then
    .response { status := 200, body := "", choices := ["Краткое саммари.".data] }
  else .raised (.requestException "boom")

/-- Attempt sequence answering HTTP 402 every time. -/
def attempts402 : Nat → AttemptResult := fun _ =>
  .response { status := 402, body := "", choices := [] }

/-- Attempt sequence answering HTTP 429 every time. -/
def attempts429 : Nat → AttemptResult := fun _ =>
  .response { status := 429, body := "", choices := [] }

/-- Attempt sequence whose first attempt is an invalid-model 400 and whose
second attempt succeeds. -/
def attempts400ThenOk : Nat → AttemptResult := fun n =>
  if n = 0 then
    .response { status := 400, body := "this model is not a valid model ID", choices := [] }
  else .response { status := 200, body := "", choices := ["ok".data] }

/-- A client collaborator on which every summarization call fails. -/
def clientAlwaysFail : List Char → Outcome := fun _ =>
  { summary := none, model_used := "m", success := false, fallback_used := true,
    meta_fallback_used := true, meta_truncated := false, meta_tokens_input := none,
    meta_tokens_output := none, meta_attempted_models := none, error := some "boom" }

/-- A client collaborator on which every summarization call succeeds with a
fixed non-empty summary. -/
def clientAlwaysOk : List Char → Outcome := fun _ =>
  { summary := some "Общий обзор.".data, model_used := "m", success := true,
    fallback_used := false, meta_fallback_used := false, meta_truncated := false,
    meta_tokens_input := none, meta_tokens_output := none,
    meta_attempted_models := none, error := none }

/-- An extractor collaborator returning the same non-empty text for every
file. -/
def extractorConst : String → List Char := fun _ => "Договор аренды помещения".data

/-- A present PDF whose first page extracts text and whose second page's
`extract_text()` raises. -/
def envPartialPdf : ExtractEnv :=
  { present := true,
    pdf := .ok [.ok (some "Договор".data), .error "damaged page"],
    image := .ok [] }

/-! ## Helper lemmas -/

/-- Every strategy name resolves to a non-empty candidate list: the lookup
defaults to the balanced list, and every list in `MODEL_HIERARCHY` is
non-empty. -/
theorem modelsFor_ne_nil (s : String) : modelsFor s ≠ [] := by
  unfold modelsFor
  cases h : MODEL_HIERARCHY.lookup s with
  | none => simp [balancedModels]
  | some l =>
    simp only [ MODEL_HIERARCHY, List.lookup] at h
    repeat' split at h
    all_goals first
      | exact Option.noConfusion h
      | (rw [← h]; simp [balancedModels])

/-- If every model of `pre` fails and `m` succeeds with content `c`, the
fallback loop stops at `m`, at absolute index `i + pre.length`. -/
theorem tryModels_of_prefix_fail (env : Env) (c : List Char) :
    ∀ (pre : List String) (m : String) (rest : List String) (i : Nat)
      (last : Option PyExc),
      (∀ p ∈ pre, ∃ e, requestWithRetry (env p) = .error e) →
      requestWithRetry (env m) = .ok c →
      tryModels env (pre ++ m :: rest) i last =
        .success (i + pre.length) m (postProcess c) := by
  intro pre
  induction pre with
  | nil =>
    intro m rest i last _ hm
    simp [tryModels, hm]
  | cons p pre ih =>
    intro m rest i last hpre hm
    obtain ⟨e, he⟩ := hpre p (by simp)
    simp only [List.cons_append, tryModels, he, List.append_eq]
    rw [ih m rest (i + 1) (some e) (fun q hq => hpre q (by simp [hq])) hm]
    congr 1
    simp only [List.length_cons]
    omega

/-- If every model of a non-empty list fails, the fallback loop exhausts it
and carries the LAST model's exception as `last_error`. -/
theorem tryModels_exhausts (env : Env) :
    ∀ (models : List String) (i : Nat) (last : Option PyExc),
      models ≠ [] →
      (∀ m ∈ models, ∃ e, requestWithRetry (env m) = .error e) →
      ∃ lm e, models.getLast? = some lm ∧ requestWithRetry (env lm) = .error e ∧
        tryModels env models i last = .exhausted (some e) := by
  intro models
  induction models with
  | nil => intro i last h _; exact absurd rfl h
  | cons m rest ih =>
    intro i last _ hfail
    obtain ⟨e, he⟩ := hfail m (by simp)
    cases rest with
    | nil => exact ⟨m, e, rfl, he, by simp [tryModels, he]⟩
    | cons r rs =>
      obtain ⟨lm, e2, hl, he2, ht⟩ :=
        ih (i + 1) (some e) (by simp) (fun q hq => hfail q (by simp [hq]))
      refine ⟨lm, e2, ?_, he2, ?_⟩
      · rw [List.getLast?_cons_cons]
        exact hl
      · simp only [tryModels, he]
        exact ht

/-! ## Claims -/

/-- C4: for every backend behaviour, every default strategy, every input
text and every strategy argument, `summarize` returns an outcome dict and
never raises (`models_to_try[0]` cannot fail because every candidate list is
non-empty); whenever the outcome is not a success, the failure is captured
in its `error` field. -/
theorem c4_summarize_never_raises (env : Env) (d : String) (text : List Char)
    (st : Option String) :
    ∃ o, summarize env d text st = .ok o ∧ (o.success = false → o.error ≠ none) := by
  obtain ⟨m0, ms, hm⟩ :=
    List.exists_cons_of_ne_nil (modelsFor_ne_nil (resolveStrategy st d))
  unfold summarize summarizeWith
  rw [hm]
  cases htry : tryModels env (m0 :: ms) 0 none with
  | success i m s =>
    simp only [htry]
    exact ⟨_, rfl, by intro hfalse; simp at hfalse⟩
  | exhausted last =>
    simp only [htry]
    exact ⟨_, rfl, by intro _; simp⟩

/-- C2: the client attempts the resolved candidate list strictly in order;
the first model whose (retried) request succeeds wins, is reported as
`model_used`, and `fallback_used` is set exactly when that winner is not the
first candidate. -/
theorem c2_fallback_order (env : Env) (d : String) (text : List Char)
    (st : Option String) (pre : List String) (m : String) (rest : List String)
    (c : List Char)
    (hmodels : modelsFor (resolveStrategy st d) = pre ++ m :: rest)
    (hpre : ∀ p ∈ pre, ∃ e, requestWithRetry (env p) = .error e)
    (hm : requestWithRetry (env m) = .ok c) :
    ∃ o, summarize env d text st = .ok o ∧ o.success = true ∧ o.model_used = m ∧
      o.summary = some (postProcess c) ∧ o.fallback_used = decide (0 < pre.length) := by
  have hloop := tryModels_of_prefix_fail env c pre m rest 0 none hpre hm
  cases pre with
  | nil =>
    simp only [List.nil_append] at hmodels hloop
    unfold summarize summarizeWith
    rw [hmodels]
    simp only [hloop]
    exact ⟨_, rfl, rfl, rfl, rfl, by simp⟩
  | cons p pre' =>
    simp only [List.cons_append] at hmodels hloop
    unfold summarize summarizeWith
    rw [hmodels]
    simp only [hloop]
    exact ⟨_, rfl, rfl, rfl, rfl, by simp⟩

/-- C2 witness: with the real `"fast"` list, the first model failing and the
second succeeding, `summarize` reports the second model with
`fallback_used = true`. -/
theorem c2_fallback_order_witness :
    ∃ o, summarize envFastFallback "balanced" "текст".data (some "fast") = .ok o ∧
      o.success = true ∧ o.model_used = "google/gemma-2-9b-it:free" ∧
      o.summary = some (postProcess "Краткое саммари.".data) ∧
      o.fallback_used = true := by
  obtain ⟨o, h1, h2, h3, h4, h5⟩ :=
    c2_fallback_order envFastFallback "balanced" "текст".data (some "fast")
      ["mistralai/mistral-7b-instruct:nitro"] "google/gemma-2-9b-it:free" []
      "Краткое саммари.".data (by decide)
      (by
        intro p hp
        have hp' : p = "mistralai/mistral-7b-instruct:nitro" := by simpa using hp
        subst hp'
        exact ⟨.retryError (.requestException "boom"), by decide⟩)
      (by decide)
  exact ⟨o, h1, h2, h3, h4, by rw [h5]; decide⟩

/-- C5: when every candidate model fails, the outcome has `success = false`,
`summary = None`, the full attempted-model list in its metadata, and an
error message embedding the rendering of the LAST model's failure; the
reported `model_used` is the first candidate. -/
theorem c5_total_exhaustion (env : Env) (d : String) (text : List Char)
    (st : Option String)
    (hfail : ∀ m ∈ modelsFor (resolveStrategy st d),
      ∃ e, requestWithRetry (env m) = .error e) :
    ∃ o m0 lm e, summarize env d text st = .ok o ∧
      o.success = false ∧ o.summary = none ∧
      o.meta_attempted_models = some (modelsFor (resolveStrategy st d)) ∧
      (modelsFor (resolveStrategy st d)).getLast? = some lm ∧
      requestWithRetry (env lm) = .error e ∧
      o.error = some ("Все модели недоступны. Последняя ошибка: " ++ excStr e) ∧
      (modelsFor (resolveStrategy st d)).head? = some m0 ∧ o.model_used = m0 := by
  obtain ⟨m0, ms, hm⟩ :=
    List.exists_cons_of_ne_nil (modelsFor_ne_nil (resolveStrategy st d))
  obtain ⟨lm, e, hl, he, ht⟩ :=
    tryModels_exhausts env (modelsFor (resolveStrategy st d)) 0 none
      (modelsFor_ne_nil _) hfail
  rw [hm] at ht hl
  unfold summarize summarizeWith
  rw [hm]
  simp only [ht]
  exact ⟨_, m0, lm, e, rfl, rfl, rfl, rfl, hl, he, rfl, rfl, rfl⟩

/-- C5 witness: with the balanced strategy and a backend on which every
request raises, the outcome is a captured total-exhaustion failure. -/
theorem c5_total_exhaustion_witness :
    ∃ o, summarize envFailAll "balanced" [] none = .ok o ∧
      o.success = false ∧ o.summary = none ∧
      o.meta_attempted_models = some balancedModels := by
  obtain ⟨o, m0, lm, e, h1, h2, h3, h4, _⟩ :=
    c5_total_exhaustion envFailAll "balanced" [] none
      (by
        intro m hm
        have hq : modelsFor (resolveStrategy none "balanced") =
            ["mistralai/mistral-7b-instruct:nitro"] := rfl
        rw [hq] at hm
        have hm' : m = "mistralai/mistral-7b-instruct:nitro" := by simpa using hm
        subst hm'
        exact ⟨.retryError (.requestException "boom"), by decide⟩)
  exact ⟨o, h1, h2, h3, by rw [h4]; decide⟩

/-- C10 as stated is false: the empty string is not a key of
`MODEL_HIERARCHY`, yet Python's `strategy or self.default_strategy` replaces
it (falsy) by the default strategy first — with default `"premium"` the run
proceeds on the premium list, not the balanced one. -/
theorem c10_unknown_strategy_counterexample :
    MODEL_HIERARCHY.lookup "" = none ∧
    (summarize envFailAll "premium" [] (some "")).map Outcome.meta_attempted_models =
      .ok (some ["nousresearch/hermes-3-llama-3.1-405b:free"]) ∧
    summarize envFailAll "premium" [] (some "") ≠
      summarize envFailAll "premium" [] (some "balanced") := by
  refine ⟨by decide, by decide, by decide⟩

/-- C10 (amended): a NON-EMPTY strategy name that is not a key of
`MODEL_HIERARCHY` makes the call proceed exactly as if `"balanced"` had been
requested. -/
theorem c10_unknown_strategy_balanced (env : Env) (d : String) (text : List Char)
    (s : String) (hs : s ≠ "") (hlk : MODEL_HIERARCHY.lookup s = none) :
    summarize env d text (some s) = summarize env d text (some "balanced") := by
  simp only [summarize, resolveStrategy]
  rw [if_neg hs, if_neg (by decide : ¬("balanced" : String) = "")]
  unfold modelsFor
  rw [hlk]
  rfl

/-- C10 witness: `"bogus"` is not a key and behaves as `"balanced"`. -/
theorem c10_unknown_strategy_balanced_witness :
    MODEL_HIERARCHY.lookup "bogus" = none ∧
    summarize envFailAll "premium" [] (some "bogus") =
      summarize envFailAll "premium" [] (some "balanced") :=
  ⟨by decide,
   c10_unknown_strategy_balanced envFailAll "premium" [] "bogus" (by decide) (by decide)⟩

set_option maxRecDepth 40000 in
/-- C1 as stated is false: with a context limit of 1000, a 1500-character
input is indeed truncated, but the PREPARED PROMPT, which wraps the
truncated text in the fixed instruction template, exceeds 1000 characters —
only the truncated text itself stays within the budget. -/
theorem c1_truncation_counterexample :
    (truncateForContext 1000 (List.replicate 1500 'a')).2 = true ∧
    (truncateForContext 1000 (List.replicate 1500 'a')).1.length = 951 ∧
    1000 < (prepare_prompt (truncateForContext 1000 (List.replicate 1500 'a')).1).length := by
  refine ⟨by decide, by decide, by decide⟩

/-- C1 (amended): with a context limit of 1000, an input longer than 1000
characters is truncated to its first 600 characters (`min 15000 (60% of
1000)`), the omission marker, and its last 300 characters
(1000 − 600 − 100), for a truncated TEXT of exactly 951 ≤ 1000 characters
(the prepared prompt adds the fixed template around it); an input of at most
1000 characters — in particular one of exactly 999 — is left untouched and
unflagged. -/
theorem c1_truncation_boundary (t : List Char) :
    (1000 < t.length →
      (truncateForContext 1000 t).1 =
        t.take 600 ++ OMIT_MARKER.data ++ t.drop (t.length - 300) ∧
      (truncateForContext 1000 t).1.length = 951 ∧
      (truncateForContext 1000 t).2 = true) ∧
    (t.length ≤ 1000 → truncateForContext 1000 t = (t, false)) := by
  constructor
  · intro h
    have hks : keepStartOf 1000 = 600 := by decide
    have hmarker : OMIT_MARKER.data.length = 51 := by decide
    unfold truncateForContext
    rw [if_pos h, hks]
    have hke : -((((1000 : Nat)) : Int) - (((600 : Nat)) : Int) - 100) = -300 := by norm_num
    rw [hke]
    have hslice : pySliceFrom t (-300) = t.drop (t.length - 300) := by
      unfold pySliceFrom
      rw [if_pos (by norm_num : (-300 : Int) < 0)]
      have harg : ((t.length : Int) + -300).toNat = t.length - 300 := by omega
      rw [harg]
    rw [hslice]
    refine ⟨rfl, ?_, rfl⟩
    simp only [List.length_append, List.length_take, List.length_drop, hmarker]
    omega
  · intro h
    unfold truncateForContext
    rw [if_neg (by omega)]

set_option maxRecDepth 40000 in
/-- C1 witness: a 1500-character input is truncated to 951 characters with
the first 600 and last 300 characters preserved around the marker; a
999-character input is not truncated. -/
theorem c1_truncation_boundary_witness :
    ((truncateForContext 1000 (List.replicate 1500 'a')).1 =
      (List.replicate 1500 'a').take 600 ++ OMIT_MARKER.data ++
        (List.replicate 1500 'a').drop 1200 ∧
      (truncateForContext 1000 (List.replicate 1500 'a')).1.length = 951) ∧
    truncateForContext 1000 (List.replicate 999 'a') = (List.replicate 999 'a', false) := by
  have h1 := (c1_truncation_boundary (List.replicate 1500 'a')).1
    (by rw [List.length_replicate]; omega)
  have h2 := (c1_truncation_boundary (List.replicate 999 'a')).2
    (by rw [List.length_replicate]; omega)
  refine ⟨⟨?_, h1.2.1⟩, h2⟩
  have hlen : (List.replicate 1500 'a').length - 300 = 1200 := by
    rw [List.length_replicate]
  rw [h1.1, hlen]

/-- C3 as stated is false at these concrete inputs: a model answering
HTTP 402 is requested a second time (the `RequestException` it raises is in
the tenacity retry filter), contradicting "no further retry of it", and a
model whose first attempt is an invalid-model 400 is retried and can even
SUCCEED on the second attempt, contradicting "immediate advance to the next
candidate". -/
theorem c3_status_codes_counterexample :
    requestWithRetryCount attempts402 =
      (.error (.retryError (.requestException "Credit limit exceeded (402)")), 2) ∧
    requestWithRetryCount attempts400ThenOk = (.ok "ok".data, 2) := by
  refine ⟨by decide, by decide⟩

/-- C3 (amended): HTTP 429, HTTP 402 and an invalid-model HTTP 400 all raise
`RequestException`, which the tenacity decorator retries uniformly: each
consumes both attempts of the same model (two attempts, i.e. exactly one
retry) before the model attempt fails, and the delivered result is decided
by the second attempt (a still-retryable second failure is wrapped in a
`RetryError`).  Only after that does the fallback loop advance. -/
theorem c3_status_codes_retried (a : Nat → AttemptResult) (r : HttpResponse)
    (h0 : a 0 = .response r)
    (hs : r.status = 429 ∨ r.status = 402 ∨
      (r.status = 400 ∧ containsSub invalidModelPat r.body.data = true)) :
    (requestWithRetryCount a).2 = 2 ∧
    (requestWithRetryCount a).1 =
      (match requestOnce (a 1) with
       | .ok s => .ok s
       | .error e2 => if retryable e2 = true then .error (.retryError e2) else .error e2) := by
  have honce : ∃ msg, requestOnce (a 0) = .error (.requestException msg) := by
    rw [h0]
    simp only [requestOnce]
    rcases hs with h | h | h
    · rw [if_pos h]
      exact ⟨_, rfl⟩
    · have hne : ¬(r.status = 429) := by simp [h]
      rw [if_neg hne, if_pos h]
      exact ⟨_, rfl⟩
    · have hne1 : ¬(r.status = 429) := by simp [h.1]
      have hne2 : ¬(r.status = 402) := by simp [h.1]
      rw [if_neg hne1, if_neg hne2, if_pos h]
      exact ⟨_, rfl⟩
  obtain ⟨msg, hmsg⟩ := honce
  simp only [requestWithRetryCount, hmsg, retryable, if_true]
  cases h1 : requestOnce (a 1) with
  | ok s => simp [h1]
  | error e2 => simp [h1]

/-- C3 witness: an always-429 model is retried (both attempts consumed)
before its failure is final — the true part of the claim, through the
amended theorem. -/
theorem c3_status_codes_retried_witness :
    (requestWithRetryCount attempts429).2 = 2 :=
  (c3_status_codes_retried attempts429
    { status := 429, body := "", choices := [] } rfl (Or.inl rfl)).1

/-- C9 as stated is false: `lstrip("Саммари:")` strips a character SET, not
a prefix — a summary beginning with ordinary words made of those letters
loses them even though it carries no label and no surrounding whitespace. -/
theorem c9_postprocess_counterexample :
    "Саммари:".data.isPrefixOf "мама мыла раму".data = false ∧
    "Summary:".data.isPrefixOf "мама мыла раму".data = false ∧
    pyStrip "мама мыла раму".data = "мама мыла раму".data ∧
    postProcess "мама мыла раму".data = "мыла раму".data := by
  refine ⟨by decide, by decide, by decide, by decide⟩

/-- C9 (amended): the post-processing drops leading characters drawn from
the character sets of `"Саммари:"` and `"Summary:"` and then strips
whitespace; consequently a summary whose FIRST CHARACTER lies outside both
character sets (not merely one lacking the label prefix) is only
whitespace-stripped, losing no leading characters. -/
theorem c9_postprocess_nonlabel (c : Char) (cs : List Char)
    (h1 : c ∉ "Саммари:".data) (h2 : c ∉ "Summary:".data) :
    postProcess (c :: cs) = pyStrip (c :: cs) := by
  unfold postProcess pyLstripChars
  rw [List.dropWhile_cons, if_neg (by simpa using h1)]
  rw [List.dropWhile_cons, if_neg (by simpa using h2)]

/-- C9 witness: a summary starting with a character outside both label
character sets is returned stripped-only. -/
theorem c9_postprocess_nonlabel_witness :
    postProcess ('Х' :: "орошо".data) = pyStrip ('Х' :: "орошо".data) :=
  c9_postprocess_nonlabel 'Х' "орошо".data (by decide) (by decide)

/-- The aggregation filter `s["status"] == "success" and s["summary"]` agrees
with the plain status test on every summary `_summarize_single_file` builds:
a `success` summary always carries a truthy (non-empty) summary text. -/
theorem isSuccessful_summarizeSingleFile (client : List Char → Outcome)
    (extractor : String → List Char) (f : String) :
    isSuccessful (summarizeSingleFile client extractor f) =
      ((summarizeSingleFile client extractor f).status == FStatus.success) := by
  by_cases h1 : (pyStrip (extractor f)).isEmpty = true
  · simp only [summarizeSingleFile]
    rw [if_pos h1]
    simp [isSuccessful, optTruthy]
  · by_cases h2 : (client (extractor f)).success = true ∧
      optTruthy (client (extractor f)).summary = true
    · simp only [summarizeSingleFile]
      rw [if_neg h1, if_pos h2]
      simp [isSuccessful, h2.2]
    · simp only [summarizeSingleFile]
      rw [if_neg h1, if_neg h2]
      simp [isSuccessful, optTruthy]

/-- Over file summaries produced by `_summarize_single_file`, the
aggregation filter selects exactly the `success` entries. -/
theorem filter_isSuccessful_map (client : List Char → Outcome)
    (extractor : String → List Char) (files : List String) :
    (files.map (summarizeSingleFile client extractor)).filter isSuccessful =
      (files.map (summarizeSingleFile client extractor)).filter
        (fun s => s.status == FStatus.success) := by
  apply List.filter_congr
  intro x hx
  obtain ⟨f, _, rfl⟩ := List.mem_map.mp hx
  exact isSuccessful_summarizeSingleFile client extractor f

/-- `_aggregate_summaries` on a summary list with at least one entry passing
its filter: exactly one aggregation call is issued, and the overview is the
call's summary on a truthy success, else the fallback message. -/
theorem aggregateSummaries_spec (client : List Char → Outcome)
    (l : List FileSummary) (h : (l.filter isSuccessful).isEmpty = false) :
    ∃ aggText, aggregateSummaries client l =
      (if (client aggText).success = true ∧ optTruthy (client aggText).summary = true
        then ((client aggText).summary, [aggText])
        else (some (aggFallback (client aggText).error), [aggText])) := by
  unfold aggregateSummaries
  simp only [h, Bool.false_eq_true, if_false]
  exact ⟨_, rfl⟩

/-- C6 as stated is false at this concrete input: a hierarchical run over a
folder with NO target files has a success count (0) below the minimum (2),
yet its `overview` is not absent — it is the empty-folder sentinel message. -/
theorem c6_aggregation_threshold_counterexample :
    countSuccess (hierarchicalSummarizeFolder (fun _ => []) clientAlwaysFail 2 "docs"
      []).file_summaries < 2 ∧
    (hierarchicalSummarizeFolder (fun _ => []) clientAlwaysFail 2 "docs" []).overview ≠
      none := by
  refine ⟨by decide, by decide⟩

/-- C6 (amended): for a hierarchical run with `min_files_for_aggregation ≥ 1`
over a folder in which at least one target file was found: if the success
count reaches the minimum, exactly one aggregation call is made and the
overview is the call's summary or, on a failed call, a fallback message
naming the failure — never absent; below the minimum, no aggregation call is
made and the overview is absent.  (A run that found no target files instead
gets the no-documents sentinel overview.) -/
theorem c6_aggregation_threshold (extractor : String → List Char)
    (client : List Char → Outcome) (minFiles : Nat) (folder : String)
    (files : List String) (hmin : 1 ≤ minFiles) (hfiles : files ≠ []) :
    let r := hierarchicalSummarizeFolder extractor client minFiles folder files
    (minFiles ≤ countSuccess r.file_summaries →
      ∃ aggText, r.aggCalls = [aggText] ∧ r.overview ≠ none ∧
        ((client aggText).success = true ∧ optTruthy (client aggText).summary = true →
          r.overview = (client aggText).summary) ∧
        (¬((client aggText).success = true ∧ optTruthy (client aggText).summary = true) →
          r.overview = some (aggFallback (client aggText).error))) ∧
    (countSuccess r.file_summaries < minFiles → r.aggCalls = [] ∧ r.overview = none) := by
  intro r
  have hne : files.isEmpty = false := by
    cases files with
    | nil => exact absurd rfl hfiles
    | cons _ _ => rfl
  have hr : r = hierarchicalSummarizeFolder extractor client minFiles folder files := rfl
  rw [hierarchicalSummarizeFolder, hne] at hr
  simp only [Bool.false_eq_true, if_false] at hr
  constructor
  · intro hge
    have hfs : r.file_summaries = files.map (summarizeSingleFile client extractor) := by
      rw [hr]
    rw [hfs] at hge
    rw [if_pos hge] at hr
    have hlen : ((files.map (summarizeSingleFile client extractor)).filter
        isSuccessful).length =
        countSuccess (files.map (summarizeSingleFile client extractor)) := by
      rw [filter_isSuccessful_map]
      rfl
    have hnemp : ((files.map (summarizeSingleFile client extractor)).filter
        isSuccessful).isEmpty = false := by
      cases hq : (files.map (summarizeSingleFile client extractor)).filter isSuccessful with
      | nil =>
        rw [hq] at hlen
        simp only [List.length_nil] at hlen
        omega
      | cons _ _ => rfl
    obtain ⟨aggText, hagg⟩ := aggregateSummaries_spec client
      (files.map (summarizeSingleFile client extractor)) hnemp
    rw [hagg] at hr
    refine ⟨aggText, ?_, ?_, ?_, ?_⟩
    · by_cases hc : (client aggText).success = true ∧ optTruthy (client aggText).summary = true
      · rw [hr, if_pos hc]
      · rw [hr, if_neg hc]
    · by_cases hc : (client aggText).success = true ∧ optTruthy (client aggText).summary = true
      · have hsome : ∃ s, (client aggText).summary = some s := by
          cases hs : (client aggText).summary with
          | none =>
            exfalso
            have := hc.2
            rw [hs] at this
            simp [optTruthy] at this
          | some s => exact ⟨s, rfl⟩
        obtain ⟨s, hs⟩ := hsome
        rw [hr, if_pos hc]
        simp [hs]
      · rw [hr, if_neg hc]
        simp
    · intro hc
      rw [hr, if_pos hc]
    · intro hc
      rw [hr, if_neg hc]
  · intro hlt
    have hfs : r.file_summaries = files.map (summarizeSingleFile client extractor) := by
      rw [hr]
    rw [hfs] at hlt
    rw [if_neg (by omega)] at hr
    rw [hr]
    exact ⟨rfl, rfl⟩

/-- C6 witness: two successfully summarized files at threshold 2 yield a
populated overview produced by the aggregation call. -/
theorem c6_aggregation_threshold_witness :
    (hierarchicalSummarizeFolder extractorConst clientAlwaysOk 2 "docs"
      ["a.pdf", "b.pdf"]).overview = some "Общий обзор.".data := by
  obtain ⟨aggText, hcalls, hnn, hok, hfail⟩ :=
    (c6_aggregation_threshold extractorConst clientAlwaysOk 2 "docs" ["a.pdf", "b.pdf"]
      (by decide) (by decide)).1 (by decide)
  rw [hok ⟨rfl, rfl⟩]
  simp [clientAlwaysOk]

/-- C8: in both strategies, `metadata.processed` equals the number of file
summaries with status `success`, and `metadata.total_files` equals the
length of `file_summaries` when target files were found, else 0. -/
theorem c8_result_invariants (extractor : String → List Char)
    (client : List Char → Outcome) (minFiles : Nat) (folder : String)
    (files : List String) :
    (hierarchicalSummarizeFolder extractor client minFiles folder files).meta_processed =
      countSuccess (hierarchicalSummarizeFolder extractor client minFiles folder
        files).file_summaries ∧
    (simpleSummarizeFolder extractor client folder files).meta_processed =
      countSuccess (simpleSummarizeFolder extractor client folder files).file_summaries ∧
    (files ≠ [] →
      (hierarchicalSummarizeFolder extractor client minFiles folder files).meta_total_files =
        (hierarchicalSummarizeFolder extractor client minFiles folder
          files).file_summaries.length ∧
      (simpleSummarizeFolder extractor client folder files).meta_total_files =
        (simpleSummarizeFolder extractor client folder files).file_summaries.length) ∧
    (files = [] →
      (hierarchicalSummarizeFolder extractor client minFiles folder files).meta_total_files = 0 ∧
      (simpleSummarizeFolder extractor client folder files).meta_total_files = 0) := by
  cases files with
  | nil =>
    exact ⟨rfl, rfl, fun h => absurd rfl h, fun _ => ⟨rfl, rfl⟩⟩
  | cons f fs =>
    exact ⟨rfl, rfl, fun _ => ⟨rfl, rfl⟩, fun h => absurd h (by simp)⟩

/-- C8 witness: the invariants at a concrete two-file run. -/
theorem c8_result_invariants_witness :
    (hierarchicalSummarizeFolder extractorConst clientAlwaysFail 2 "docs"
      ["a.pdf", "b.pdf"]).meta_processed =
      countSuccess (hierarchicalSummarizeFolder extractorConst clientAlwaysFail 2 "docs"
        ["a.pdf", "b.pdf"]).file_summaries ∧
    (hierarchicalSummarizeFolder extractorConst clientAlwaysFail 2 "docs"
      ["a.pdf", "b.pdf"]).meta_total_files =
      (hierarchicalSummarizeFolder extractorConst clientAlwaysFail 2 "docs"
        ["a.pdf", "b.pdf"]).file_summaries.length :=
  ⟨(c8_result_invariants extractorConst clientAlwaysFail 2 "docs" ["a.pdf", "b.pdf"]).1,
   ((c8_result_invariants extractorConst clientAlwaysFail 2 "docs"
      ["a.pdf", "b.pdf"]).2.2.1 (by decide)).1⟩

/-- A page-level failure truncates PDF extraction to the pages already
processed: the loop over `good ++ error :: rest` returns what the loop over
`good` alone returns. -/
theorem pdfLoop_append_ok_error (e : String)
    (rest : List (Except String (Option (List Char)))) :
    ∀ (good : List (Except String (Option (List Char)))) (n : Nat) (acc : List Char),
      (∀ x ∈ good, ∃ t, x = Except.ok t) →
      pdfLoop (good ++ .error e :: rest) n acc = pdfLoop good n acc := by
  intro good
  induction good with
  | nil => intro n acc _; rfl
  | cons x good ih =>
    intro n acc hgood
    obtain ⟨t, ht⟩ := hgood x (by simp)
    subst ht
    simp only [List.cons_append, pdfLoop]
    exact ih (n + 1) _ (fun y hy => hgood y (by simp [hy]))

/-- C7 as stated is false at this concrete input: a PDF whose first page
extracts text and whose second page raises is a failing extraction, yet
`extract_file` returns the first page's text, not the empty string. -/
theorem c7_partial_pdf_counterexample :
    extract_file "scan.pdf".data envPartialPdf = "--- Страница 1 ---\nДоговор".data ∧
    extract_file "scan.pdf".data envPartialPdf ≠ [] := by
  refine ⟨by decide, by decide⟩

/-- C7 (amended): `extract_file` is total (every exception of the handlers
is caught) and returns the empty string on a missing path, on an unsupported
extension (with no error recorded), on a PDF that fails to open, and on any
image/OCR failure; a PDF page failure occurring AFTER earlier pages yielded
text instead returns the text of the already-extracted pages. -/
theorem c7_extract_file_failures (path : List Char) (env : ExtractEnv) :
    (env.present = false → extract_file path env = []) ∧
    (∀ e, env.pdf = .error e →
      SUPPORTED_PDF_EXTS.contains (pyLower (pySuffix path)) = true →
      extract_file path env = []) ∧
    (∀ e, env.image = .error e →
      SUPPORTED_PDF_EXTS.contains (pyLower (pySuffix path)) = false →
      SUPPORTED_IMAGE_EXTS.contains (pyLower (pySuffix path)) = true →
      extract_file path env = []) ∧
    (SUPPORTED_PDF_EXTS.contains (pyLower (pySuffix path)) = false →
      SUPPORTED_IMAGE_EXTS.contains (pyLower (pySuffix path)) = false →
      extract_file path env = []) ∧
    (∀ good e rest, (∀ x ∈ good, ∃ t, x = Except.ok t) →
      pdfLoop (good ++ .error e :: rest) 1 [] = pdfLoop good 1 []) := by
  refine ⟨?_, ?_, ?_, ?_, ?_⟩
  · intro hp
    simp [extract_file, hp]
  · intro e he hext
    have hext' : pyLower (pySuffix path) ∈ SUPPORTED_PDF_EXTS := by simpa using hext
    cases hpres : env.present with
    | false => simp [extract_file, hpres]
    | true => simp [extract_file, hpres, hext', he, extractPdf]
  · intro e he hpdf himg
    have hpdf' : pyLower (pySuffix path) ∉ SUPPORTED_PDF_EXTS := by simpa using hpdf
    have himg' : pyLower (pySuffix path) ∈ SUPPORTED_IMAGE_EXTS := by simpa using himg
    cases hpres : env.present with
    | false => simp [extract_file, hpres]
    | true => simp [extract_file, hpres, hpdf', himg', he, extractImage]
  · intro hpdf himg
    have hpdf' : pyLower (pySuffix path) ∉ SUPPORTED_PDF_EXTS := by simpa using hpdf
    have himg' : pyLower (pySuffix path) ∉ SUPPORTED_IMAGE_EXTS := by simpa using himg
    cases hpres : env.present with
    | false => simp [extract_file, hpres]
    | true => simp [extract_file, hpres, hpdf', himg']
  · exact fun good e rest h => pdfLoop_append_ok_error e rest good 1 [] h

/-- C7 witness: a PDF failing at open and a `.txt` file both yield the empty
string. -/
theorem c7_extract_file_failures_witness :
    extract_file "broken.pdf".data
      { present := true, pdf := .error "bad file", image := .ok [] } = [] ∧
    extract_file "notes.txt".data
      { present := true, pdf := .ok [], image := .ok [] } = [] :=
  ⟨(c7_extract_file_failures "broken.pdf".data
      { present := true, pdf := .error "bad file", image := .ok [] }).2.1
      "bad file" rfl (by decide),
   (c7_extract_file_failures "notes.txt".data
      { present := true, pdf := .ok [], image := .ok [] }).2.2.2.1
      (by decide) (by decide)⟩

end OcrApp
